import Mathlib

/-!
# Verification of the Operational Diagnostic Estimation Engine

A shallow embedding of `src/lib/mcp.ts` (the "Factory Physics / TOC /
Opportunity-Cost Math Engine"): `deriveClinicMetrics`,
`generateMockBottlenecks` and `getMockDiagnosticResult`, together with
proofs and refutations of the frozen specification claims.

Number model.  The source is JavaScript, whose numbers are IEEE doubles.
We embed the arithmetic over exact rationals `ℚ`; `Math.round x` becomes
`⌊x + 1/2⌋` (round half toward +∞, as in JS).  Over `ℚ`, Lean defines
`x / 0 = 0`, which does *not* match JS (where `x / 0` is `±Infinity` or
`NaN`); every claim whose truth hinges on a division by zero is therefore
settled against a second embedding of the same source lines over `JSNum`,
an extended number type with `inf`, `negInf` and `nan` following IEEE
semantics for the operations the source uses.  Universally quantified
theorems over the `ℚ` embedding carry hypotheses (`ValidInput`,
`ValidDeeperOpt`) that keep every divisor of the source nonzero, which is
exactly the caller pre-validation contract of the specification (§7).

Display-only parts of the source (the `description` strings built with
`formatDollars`/`toLocaleString`, and the `hidden_leaks` string list) are
not modelled: no claim mentions them.  The JS field names `"90_day_projection"`
and `"12_month_projection"` are not valid Lean identifiers and are rendered
as `ninety_day_projection` / `twelve_month_projection`.
-/

/-- JS `Math.round`: nearest integer, ties toward +∞, i.e. `⌊q + 1/2⌋`. -/
def jsRound (q : ℚ) : ℚ := (⌊q + 1/2⌋ : ℤ)

/-- JS `Math.ceil` on a rational. -/
def jsCeil (q : ℚ) : ℚ := (⌈q⌉ : ℤ)

/-- An extended number type mirroring IEEE-double special values, used to
embed the source lines whose behaviour at a zero divisor matters
(`Infinity`, `-Infinity`, `NaN` of JavaScript).  Finite values are exact
rationals. -/
inductive JSNum : Type
  | nan : JSNum
  | inf : JSNum
  | negInf : JSNum
  | num : ℚ → JSNum
deriving DecidableEq

namespace JSNum

def neg : JSNum → JSNum
  | nan => nan
  | inf => negInf
  | negInf => inf
  | num q => num (-q)

def add : JSNum → JSNum → JSNum
  | nan, _ => nan
  | _, nan => nan
  | inf, negInf => nan
  | negInf, inf => nan
  | inf, _ => inf
  | _, inf => inf
  | negInf, _ => negInf
  | _, negInf => negInf
  | num a, num b => num (a + b)

def sub (a b : JSNum) : JSNum := add a (neg b)

def mul : JSNum → JSNum → JSNum
  | nan, _ => nan
  | _, nan => nan
  | inf, inf => inf
  | inf, negInf => negInf
  | negInf, inf => negInf
  | negInf, negInf => inf
  | inf, num b => if 0 < b then inf else if b < 0 then negInf else nan
  | num a, inf => if 0 < a then inf else if a < 0 then negInf else nan
  | negInf, num b => if 0 < b then negInf else if b < 0 then inf else nan
  | num a, negInf => if 0 < a then negInf else if a < 0 then inf else nan
  | num a, num b => num (a * b)

/-- IEEE division; a finite value divided by (+)0 is `±Infinity`
(or `NaN` for `0/0`), exactly as in JS. -/
def div : JSNum → JSNum → JSNum
  | nan, _ => nan
  | _, nan => nan
  | inf, inf => nan
  | inf, negInf => nan
  | negInf, inf => nan
  | negInf, negInf => nan
  | inf, num b => if 0 ≤ b then inf else negInf
  | negInf, num b => if 0 ≤ b then negInf else inf
  | num _, inf => num 0
  | num _, negInf => num 0
  | num a, num b =>
      if b = 0 then (if 0 < a then inf else if a < 0 then negInf else nan)
      else num (a / b)

/-- JS `Math.round` lifted: `Math.round(Infinity) = Infinity`, `Math.round(NaN) = NaN`. -/
def rnd : JSNum → JSNum
  | nan => nan
  | inf => inf
  | negInf => negInf
  | num q => num (jsRound q)

def ceil : JSNum → JSNum
  | nan => nan
  | inf => inf
  | negInf => negInf
  | num q => num (jsCeil q)

/-- JS `Math.max` (NaN-propagating). -/
def maxJ : JSNum → JSNum → JSNum
  | nan, _ => nan
  | _, nan => nan
  | inf, _ => inf
  | _, inf => inf
  | negInf, b => b
  | a, negInf => a
  | num a, num b => num (max a b)

/-- JS `Math.min` (NaN-propagating). -/
def minJ : JSNum → JSNum → JSNum
  | nan, _ => nan
  | _, nan => nan
  | negInf, _ => negInf
  | _, negInf => negInf
  | inf, b => b
  | a, inf => a
  | num a, num b => num (min a b)

/-- JS `>` comparison: false whenever one side is NaN. -/
def gtb : JSNum → JSNum → Bool
  | nan, _ => false
  | _, nan => false
  | inf, inf => false
  | inf, _ => true
  | _, inf => false
  | negInf, negInf => false
  | _, negInf => true
  | negInf, _ => false
  | num a, num b => decide (b < a)

end JSNum

/-! ## Data model (`src/lib/mcp.ts`, types `DiagnosticInput`, `DeeperInput`,
`Bottleneck`, `McpDiagnosticResult`) -/

structure DiagnosticInput : Type where
  clinic_name : String
  monthly_revenue : ℚ
  staff_count : ℚ
  no_show_rate : ℚ
  avg_treatment_value : ℚ
  number_of_locations : ℚ
deriving DecidableEq

/-- The optional refinement record; each field is independently optional
(`?:` in the source). -/
structure DeeperInput : Type where
  staff_hourly_cost : Option ℚ
  monthly_marketing_spend : Option ℚ
  current_inventory_value : Option ℚ
  csv_row_count : Option ℚ
deriving DecidableEq

/-- One bottleneck row.  The display-only `description` string of the source
is not modelled. -/
structure Bottleneck : Type where
  name : String
  impactDollars : ℚ
  impactPercent : ℚ
  confidence : ℚ
  ciLow : ℚ
  ciHigh : ℚ
deriving DecidableEq

/-! ## Engine constants (`src/lib/mcp.ts` lines 68–75).
`PROVIDER_RATIO` and `ADMIN_TIME_RATIO` of the source are rendered
`PROVIDER_FRAC` / `ADMIN_TIME_FRAC` here. -/

def WORKING_DAYS : ℚ := 22
def WEEKS_PER_MONTH : ℚ := 4.33
def STAFF_HOURS_PER_DAY : ℚ := 8
def AVG_TREATMENT_DURATION_HRS : ℚ := 0.75
def BEST_IN_CLASS_UTILIZATION : ℚ := 0.85
def PROVIDER_FRAC : ℚ := 0.6
def ADMIN_TIME_FRAC : ℚ := 0.35
def DEFAULT_HOURLY_COST : ℚ := 30

/-- The record of locals computed by `deriveClinicMetrics`. -/
structure ClinicMetrics : Type where
  monthly : ℚ
  atv : ℚ
  staff : ℚ
  noShow : ℚ
  locs : ℚ
  staffHourly : ℚ
  treatmentsCompleted : ℚ
  treatmentsPerDay : ℚ
  grossScheduled : ℚ
  noShowAppointments : ℚ
  providers : ℚ
  providerHoursPerMonth : ℚ
  capacityTreatments : ℚ
  currentUtilization : ℚ
  revenuePerProviderHour : ℚ
  adminHoursPerWeek : ℚ
  adminHoursPerMonth : ℚ
  gapHoursPerProviderPerDay : ℚ
deriving DecidableEq

/-- `deriveClinicMetrics` (source lines 77–118), exact-rational embedding.
Faithful to the source whenever `avg_treatment_value ≠ 0` and
`no_show_rate ≠ 100`; at those two points the source's IEEE division gives
`Infinity`/`NaN` (see `deriveClinicMetricsJS`) while `ℚ` division gives `0`. -/
def deriveClinicMetrics (input : DiagnosticInput) (deeper : Option DeeperInput) :
    ClinicMetrics :=
  let monthly := input.monthly_revenue
  let atv := input.avg_treatment_value
  let staff := input.staff_count
  let noShow := input.no_show_rate / 100
  let locs := input.number_of_locations
  let staffHourly := ((deeper.bind DeeperInput.staff_hourly_cost).getD DEFAULT_HOURLY_COST)
  let treatmentsCompleted := jsRound (monthly / atv)
  let treatmentsPerDay := treatmentsCompleted / WORKING_DAYS
  let grossScheduled := jsRound (treatmentsCompleted / (1 - noShow))
  let noShowAppointments := grossScheduled - treatmentsCompleted
  let providers := max 1 (jsRound (staff * PROVIDER_FRAC))
  let providerHoursPerMonth := providers * STAFF_HOURS_PER_DAY * WORKING_DAYS
  let capacityTreatments := jsRound (providerHoursPerMonth / AVG_TREATMENT_DURATION_HRS)
  let currentUtilization := min 0.99 (treatmentsCompleted / capacityTreatments)
  let revenuePerProviderHour := monthly / providerHoursPerMonth
  let adminHoursPerWeek := jsRound (staff * ADMIN_TIME_FRAC * 40)
  let adminHoursPerMonth := jsRound (adminHoursPerWeek * WEEKS_PER_MONTH)
  let gapHoursPerProviderPerDay :=
    if noShow > 0.08 then (1.8 : ℚ) else if noShow > 0.04 then 1.2 else 0.8
  { monthly := monthly, atv := atv, staff := staff, noShow := noShow,
    locs := locs, staffHourly := staffHourly,
    treatmentsCompleted := treatmentsCompleted, treatmentsPerDay := treatmentsPerDay,
    grossScheduled := grossScheduled, noShowAppointments := noShowAppointments,
    providers := providers, providerHoursPerMonth := providerHoursPerMonth,
    capacityTreatments := capacityTreatments, currentUtilization := currentUtilization,
    revenuePerProviderHour := revenuePerProviderHour,
    adminHoursPerWeek := adminHoursPerWeek, adminHoursPerMonth := adminHoursPerMonth,
    gapHoursPerProviderPerDay := gapHoursPerProviderPerDay }

/-- The same locals over IEEE-style extended numbers. -/
structure ClinicMetricsJS : Type where
  staffHourly : JSNum
  treatmentsCompleted : JSNum
  treatmentsPerDay : JSNum
  grossScheduled : JSNum
  noShowAppointments : JSNum
  providers : JSNum
  providerHoursPerMonth : JSNum
  capacityTreatments : JSNum
  currentUtilization : JSNum
  revenuePerProviderHour : JSNum
  adminHoursPerWeek : JSNum
  adminHoursPerMonth : JSNum
  gapHoursPerProviderPerDay : JSNum
deriving DecidableEq

/-- `deriveClinicMetrics` (source lines 77–118) embedded over `JSNum`, keeping
the IEEE behaviour of the source at zero divisors: in JS
`Math.round(monthly / 0) = Infinity` and `Infinity - Infinity = NaN`.
Used to settle the claims about `avg_treatment_value = 0` and
`no_show_rate = 100`. -/
def deriveClinicMetricsJS (input : DiagnosticInput) (deeper : Option DeeperInput) :
    ClinicMetricsJS :=
  let monthly := JSNum.num input.monthly_revenue
  let atv := JSNum.num input.avg_treatment_value
  let staff := JSNum.num input.staff_count
  let noShow := JSNum.div (JSNum.num input.no_show_rate) (JSNum.num 100)
  let staffHourly :=
    JSNum.num ((deeper.bind DeeperInput.staff_hourly_cost).getD DEFAULT_HOURLY_COST)
  let treatmentsCompleted := JSNum.rnd (JSNum.div monthly atv)
  let treatmentsPerDay := JSNum.div treatmentsCompleted (JSNum.num WORKING_DAYS)
  let grossScheduled :=
    JSNum.rnd (JSNum.div treatmentsCompleted (JSNum.sub (JSNum.num 1) noShow))
  let noShowAppointments := JSNum.sub grossScheduled treatmentsCompleted
  let providers :=
    JSNum.maxJ (JSNum.num 1) (JSNum.rnd (JSNum.mul staff (JSNum.num PROVIDER_FRAC)))
  let providerHoursPerMonth :=
    JSNum.mul (JSNum.mul providers (JSNum.num STAFF_HOURS_PER_DAY)) (JSNum.num WORKING_DAYS)
  let capacityTreatments :=
    JSNum.rnd (JSNum.div providerHoursPerMonth (JSNum.num AVG_TREATMENT_DURATION_HRS))
  let currentUtilization :=
    JSNum.minJ (JSNum.num 0.99) (JSNum.div treatmentsCompleted capacityTreatments)
  let revenuePerProviderHour := JSNum.div monthly providerHoursPerMonth
  let adminHoursPerWeek :=
    JSNum.rnd (JSNum.mul (JSNum.mul staff (JSNum.num ADMIN_TIME_FRAC)) (JSNum.num 40))
  let adminHoursPerMonth :=
    JSNum.rnd (JSNum.mul adminHoursPerWeek (JSNum.num WEEKS_PER_MONTH))
  let gapHoursPerProviderPerDay :=
    if JSNum.gtb noShow (JSNum.num 0.08) then JSNum.num 1.8
    else if JSNum.gtb noShow (JSNum.num 0.04) then JSNum.num 1.2 else JSNum.num 0.8
  { staffHourly := staffHourly,
    treatmentsCompleted := treatmentsCompleted, treatmentsPerDay := treatmentsPerDay,
    grossScheduled := grossScheduled, noShowAppointments := noShowAppointments,
    providers := providers, providerHoursPerMonth := providerHoursPerMonth,
    capacityTreatments := capacityTreatments, currentUtilization := currentUtilization,
    revenuePerProviderHour := revenuePerProviderHour,
    adminHoursPerWeek := adminHoursPerWeek, adminHoursPerMonth := adminHoursPerMonth,
    gapHoursPerProviderPerDay := gapHoursPerProviderPerDay }

/-! ## `generateMockBottlenecks` (source lines 120–269)

Each bottleneck record the source pushes is embedded as its own definition,
named after the source local holding its impact.  `ciMult` and `baseCi` are
the two mode-dependent precision locals of lines 126–127 (`baseCi` is the
source's name for the base *confidence*). -/

def ciMult (isDeeper : Bool) : ℚ := if isDeeper then 0.05 else 0.12

def baseCi (isDeeper : Bool) : ℚ := if isDeeper then 93 else 85

/-- Impact of bottleneck 1 (lines 132–134). -/
def noShowImpact (input : DiagnosticInput) (deeper : Option DeeperInput) : ℚ :=
  let m := deriveClinicMetrics input deeper
  jsRound (m.noShowAppointments * m.atv * 0.65)

/-- `deadTimeMonthly` (line 139). -/
def deadTimeMonthly (input : DiagnosticInput) (deeper : Option DeeperInput) : ℚ :=
  let m := deriveClinicMetrics input deeper
  m.providers * m.gapHoursPerProviderPerDay * WORKING_DAYS

/-- Impact of bottleneck 2 (line 140). -/
def deadTimeRevenueLost (input : DiagnosticInput) (deeper : Option DeeperInput) : ℚ :=
  let m := deriveClinicMetrics input deeper
  jsRound (deadTimeMonthly input deeper * m.revenuePerProviderHour)

/-- `adminCostMonthly` (line 144). -/
def adminCostMonthly (input : DiagnosticInput) (deeper : Option DeeperInput) : ℚ :=
  let m := deriveClinicMetrics input deeper
  jsRound (m.adminHoursPerMonth * m.staffHourly)

/-- Impact of bottleneck 3 (line 145). -/
def adminAutomatable (input : DiagnosticInput) (deeper : Option DeeperInput) : ℚ :=
  jsRound (adminCostMonthly input deeper * 0.70)

/-- `recoverablePatients` (line 150). -/
def recoverablePatients (input : DiagnosticInput) (deeper : Option DeeperInput) : ℚ :=
  let m := deriveClinicMetrics input deeper
  jsRound (m.treatmentsCompleted * 0.15)

/-- Impact of bottleneck 4 (line 151). -/
def recallRevenue (input : DiagnosticInput) (deeper : Option DeeperInput) : ℚ :=
  let m := deriveClinicMetrics input deeper
  jsRound (recoverablePatients input deeper * m.atv * 0.80)

/-- `utilizationGap` (line 155). -/
def utilizationGap (input : DiagnosticInput) (deeper : Option DeeperInput) : ℚ :=
  let m := deriveClinicMetrics input deeper
  max 0 (BEST_IN_CLASS_UTILIZATION - m.currentUtilization)

/-- Impact of bottleneck 5 (line 156). -/
def utilizationRevenue (input : DiagnosticInput) (deeper : Option DeeperInput) : ℚ :=
  let m := deriveClinicMetrics input deeper
  jsRound (utilizationGap input deeper * m.capacityTreatments * m.atv)

/-- Bottleneck 1, "No-Show Revenue Drain" (lines 159–167). -/
def noShowBottleneck (input : DiagnosticInput) (deeper : Option DeeperInput) : Bottleneck :=
  let m := deriveClinicMetrics input deeper
  let isDeeper := deeper.isSome
  { name := "No-Show Revenue Drain",
    impactDollars := noShowImpact input deeper,
    impactPercent := jsRound (noShowImpact input deeper / m.monthly * 100),
    confidence := min 99 (baseCi isDeeper + 7),
    ciLow := jsRound (noShowImpact input deeper * (1 - ciMult isDeeper)),
    ciHigh := jsRound (noShowImpact input deeper * (1 + ciMult isDeeper)) }

/-- Bottleneck 2, "Schedule Gap Dead Time" (lines 168–176). -/
def deadTimeBottleneck (input : DiagnosticInput) (deeper : Option DeeperInput) : Bottleneck :=
  let m := deriveClinicMetrics input deeper
  let isDeeper := deeper.isSome
  { name := "Schedule Gap Dead Time",
    impactDollars := deadTimeRevenueLost input deeper,
    impactPercent := jsRound (deadTimeRevenueLost input deeper / m.monthly * 100),
    confidence := min 99 (baseCi isDeeper + 4),
    ciLow := jsRound (deadTimeRevenueLost input deeper * (1 - ciMult isDeeper)),
    ciHigh := jsRound (deadTimeRevenueLost input deeper * (1 + ciMult isDeeper)) }

/-- Bottleneck 3, "Admin Overhead Burn" (lines 177–185). -/
def adminBottleneck (input : DiagnosticInput) (deeper : Option DeeperInput) : Bottleneck :=
  let m := deriveClinicMetrics input deeper
  let isDeeper := deeper.isSome
  { name := "Admin Overhead Burn",
    impactDollars := adminAutomatable input deeper,
    impactPercent := jsRound (adminAutomatable input deeper / m.monthly * 100),
    confidence := min 99 (baseCi isDeeper + 3),
    ciLow := jsRound (adminAutomatable input deeper * (1 - ciMult isDeeper)),
    ciHigh := jsRound (adminAutomatable input deeper * (1 + ciMult isDeeper)) }

/-- Bottleneck 4, "Dormant Patient Revenue" (lines 186–194). -/
def recallBottleneck (input : DiagnosticInput) (deeper : Option DeeperInput) : Bottleneck :=
  let m := deriveClinicMetrics input deeper
  let isDeeper := deeper.isSome
  { name := "Dormant Patient Revenue",
    impactDollars := recallRevenue input deeper,
    impactPercent := jsRound (recallRevenue input deeper / m.monthly * 100),
    confidence := min 99 (baseCi isDeeper + 1),
    ciLow := jsRound (recallRevenue input deeper * (1 - ciMult isDeeper * 1.2)),
    ciHigh := jsRound (recallRevenue input deeper * (1 + ciMult isDeeper * 1.2)) }

/-- Bottleneck 5, "Chair Utilization Gap" (lines 197–207), pushed only when
its impact is positive. -/
def utilizationBottleneck (input : DiagnosticInput) (deeper : Option DeeperInput) : Bottleneck :=
  let m := deriveClinicMetrics input deeper
  let isDeeper := deeper.isSome
  { name := "Chair Utilization Gap",
    impactDollars := utilizationRevenue input deeper,
    impactPercent := jsRound (utilizationRevenue input deeper / m.monthly * 100),
    confidence := min 99 (baseCi isDeeper),
    ciLow := jsRound (utilizationRevenue input deeper * (1 - ciMult isDeeper * 1.3)),
    ciHigh := jsRound (utilizationRevenue input deeper * (1 + ciMult isDeeper * 1.3)) }

/-- Deeper-mode local `marketingSpend` (line 211). -/
def marketingSpend (input : DiagnosticInput) (dd : DeeperInput) : ℚ :=
  dd.monthly_marketing_spend.getD (input.monthly_revenue * 0.08)

/-- Deeper-mode local `inventoryValue` (line 212). -/
def inventoryValue (input : DiagnosticInput) (dd : DeeperInput) : ℚ :=
  dd.current_inventory_value.getD (input.monthly_revenue * 0.15)

/-- Impact of bottleneck 6, `idleWageCost` (line 215): the deeper branch
recomputes `staffHourly = deeper.staff_hourly_cost ?? DEFAULT_HOURLY_COST`. -/
def idleWageCost (input : DiagnosticInput) (dd : DeeperInput) : ℚ :=
  jsRound (deadTimeMonthly input (some dd) * (dd.staff_hourly_cost.getD DEFAULT_HOURLY_COST))

/-- Bottleneck 6, "Staff Idle Wage Burn" (lines 216–224); only constructed in
the deeper branch, where `isDeeper` is true. -/
def idleWageBottleneck (input : DiagnosticInput) (dd : DeeperInput) : Bottleneck :=
  { name := "Staff Idle Wage Burn",
    impactDollars := idleWageCost input dd,
    impactPercent := jsRound (idleWageCost input dd / input.monthly_revenue * 100),
    confidence := min 99 (baseCi true + 5),
    ciLow := jsRound (idleWageCost input dd * (1 - ciMult true)),
    ciHigh := jsRound (idleWageCost input dd * (1 + ciMult true)) }

/-- Deeper-mode local `avgUpsellValue` (line 227). -/
def avgUpsellValue (input : DiagnosticInput) (dd : DeeperInput) : ℚ :=
  jsRound ((deriveClinicMetrics input (some dd)).atv * 0.35)

/-- Deeper-mode local `upsellOpportunities` (line 228). -/
def upsellOpportunities (input : DiagnosticInput) (dd : DeeperInput) : ℚ :=
  jsRound ((deriveClinicMetrics input (some dd)).treatmentsCompleted * 0.45)

/-- Impact of bottleneck 7, `missedUpsellRevenue` (line 229). -/
def missedUpsellRevenue (input : DiagnosticInput) (dd : DeeperInput) : ℚ :=
  jsRound (upsellOpportunities input dd * avgUpsellValue input dd * 0.30)

/-- Bottleneck 7, "Missed Treatment Upsell" (lines 230–238). -/
def upsellBottleneck (input : DiagnosticInput) (dd : DeeperInput) : Bottleneck :=
  { name := "Missed Treatment Upsell",
    impactDollars := missedUpsellRevenue input dd,
    impactPercent := jsRound (missedUpsellRevenue input dd / input.monthly_revenue * 100),
    confidence := min 99 (baseCi true + 2),
    ciLow := jsRound (missedUpsellRevenue input dd * (1 - ciMult true)),
    ciHigh := jsRound (missedUpsellRevenue input dd * (1 + ciMult true)) }

/-- Impact of bottleneck 8, `inventoryWaste` (line 241). -/
def inventoryWaste (input : DiagnosticInput) (dd : DeeperInput) : ℚ :=
  jsRound (inventoryValue input dd * 0.11)

/-- Bottleneck 8, "Inventory Waste & Carrying Cost" (lines 242–250). -/
def inventoryBottleneck (input : DiagnosticInput) (dd : DeeperInput) : Bottleneck :=
  { name := "Inventory Waste & Carrying Cost",
    impactDollars := inventoryWaste input dd,
    impactPercent := jsRound (inventoryWaste input dd / input.monthly_revenue * 100),
    confidence := min 99 (baseCi true + 1),
    ciLow := jsRound (inventoryWaste input dd * (1 - ciMult true * 1.1)),
    ciHigh := jsRound (inventoryWaste input dd * (1 + ciMult true * 1.1)) }

/-- Impact of bottleneck 9, `wastedMarketing` (line 255). -/
def wastedMarketing (input : DiagnosticInput) (dd : DeeperInput) : ℚ :=
  jsRound (marketingSpend input dd * 0.28)

/-- Bottleneck 9, "Marketing Spend Blind Spot" (lines 256–264), pushed only
when `marketingSpend > 0`.  Note its confidence uses `baseCi - 1`. -/
def marketingBottleneck (input : DiagnosticInput) (dd : DeeperInput) : Bottleneck :=
  { name := "Marketing Spend Blind Spot",
    impactDollars := wastedMarketing input dd,
    impactPercent := jsRound (wastedMarketing input dd / input.monthly_revenue * 100),
    confidence := min 99 (baseCi true - 1),
    ciLow := jsRound (wastedMarketing input dd * (1 - ciMult true * 1.2)),
    ciHigh := jsRound (wastedMarketing input dd * (1 + ciMult true * 1.2)) }

/-- The bottleneck array exactly as the source builds it, before the final
sort: four unconditional pushes, the conditional utilization push, then the
deeper-branch pushes. -/
def bottlenecksUnsorted (input : DiagnosticInput) (deeper : Option DeeperInput) :
    List Bottleneck :=
  [noShowBottleneck input deeper, deadTimeBottleneck input deeper,
   adminBottleneck input deeper, recallBottleneck input deeper] ++
  (if 0 < utilizationRevenue input deeper then [utilizationBottleneck input deeper] else []) ++
  (match deeper with
   | none => []
   | some dd =>
       [idleWageBottleneck input dd, upsellBottleneck input dd, inventoryBottleneck input dd] ++
       (if 0 < marketingSpend input dd then [marketingBottleneck input dd] else []))

/-- Stable insertion into a list already sorted descending by `impactDollars`:
the element is placed before the first entry whose impact is not strictly
larger.  This is the unique stable descending sort, which is what
`Array.prototype.sort` with comparator `(a, b) => b.impactDollars - a.impactDollars`
performs (ES2019 sort is stable). -/
def insertByImpact (x : Bottleneck) : List Bottleneck → List Bottleneck
  | [] => [x]
  | y :: ys =>
      if x.impactDollars < y.impactDollars then y :: insertByImpact x ys
      else x :: y :: ys

/-- Stable sort, descending by `impactDollars` (source line 268). -/
def sortByImpact : List Bottleneck → List Bottleneck
  | [] => []
  | x :: xs => insertByImpact x (sortByImpact xs)

/-- `generateMockBottlenecks` (source lines 120–269). -/
def generateMockBottlenecks (input : DiagnosticInput) (deeper : Option DeeperInput) :
    List Bottleneck :=
  sortByImpact (bottlenecksUnsorted input deeper)

/-! ## `getMockDiagnosticResult` (source lines 275–348) -/

/-- The numeric fields of the `current_state` snapshot (lines 313–322). -/
structure CurrentState : Type where
  monthly_revenue : ℚ
  staff_count : ℚ
  no_show_rate : ℚ
  avg_treatment_value : ℚ
  locations : ℚ
  treatments_per_month : ℚ
  provider_utilization : ℚ
  admin_hours_per_week : ℚ
deriving DecidableEq

/-- The `"90_day_projection"` sub-object (lines 331–336).  `payback_months`
is the one field whose source expression divides by a quantity that can be
zero (`recoverableMonthly`), so it is carried as a `JSNum`. -/
structure NinetyDayProjection : Type where
  revenue_lift_pct : ℚ
  staff_hours_saved_per_week : ℚ
  no_show_reduction_pct : ℚ
  payback_months : JSNum
deriving DecidableEq

/-- The `"12_month_projection"` sub-object (lines 337–342). -/
structure TwelveMonthProjection : Type where
  revenue_lift_pct : ℚ
  total_savings : ℚ
  staff_reduction_pct : ℚ
  roi_multiple : ℚ
deriving DecidableEq

/-- The result record (type `McpDiagnosticResult`, lines 27–37), minus the
display-only `hidden_leaks` strings. -/
structure McpDiagnosticResult : Type where
  current_state : CurrentState
  bottlenecks : List Bottleneck
  ninety_day_projection : NinetyDayProjection
  twelve_month_projection : TwelveMonthProjection
  staff_reduction_pct : ℚ
  revenue_lift : ℚ
  total_savings : ℚ
  recommended_pilot_value : ℚ
deriving DecidableEq

/-- `getMockDiagnosticResult` (source lines 275–348). -/
def getMockDiagnosticResult (input : DiagnosticInput) (deeperData : Option DeeperInput) :
    McpDiagnosticResult :=
  let m := deriveClinicMetrics input deeperData
  let isDeeper := deeperData.isSome
  let bottlenecks := generateMockBottlenecks input deeperData
  let totalBottleneckImpactMonthly :=
    bottlenecks.foldl (fun sum b => sum + b.impactDollars) 0
  let captureRate : ℚ := if isDeeper then 0.72 else 0.60
  let recoverableMonthly := jsRound (totalBottleneckImpactMonthly * captureRate)
  let revenueLift := jsRound (recoverableMonthly / m.monthly * 1000) / 10
  let adminAutomationPct := 0.70 * ADMIN_TIME_FRAC
  let staffReduction := jsRound (adminAutomationPct * 1000) / 10
  let hoursSavedPerWeek := jsRound (m.staff * 40 * adminAutomationPct)
  let totalSavings12mo := recoverableMonthly * 12
  let pilotValue : ℚ := if m.locs = 1 then 8000 else 12000
  let roiMultiple := jsRound (totalSavings12mo / pilotValue * 10) / 10
  let paybackMonths :=
    JSNum.maxJ (JSNum.num 1)
      (JSNum.ceil (JSNum.div (JSNum.num pilotValue) (JSNum.num recoverableMonthly)))
  let noShowReduction : ℚ := if isDeeper then 55 else 42
  { current_state :=
      { monthly_revenue := m.monthly, staff_count := m.staff,
        no_show_rate := input.no_show_rate, avg_treatment_value := m.atv,
        locations := m.locs, treatments_per_month := m.treatmentsCompleted,
        provider_utilization := jsRound (m.currentUtilization * 100),
        admin_hours_per_week := m.adminHoursPerWeek },
    bottlenecks := bottlenecks,
    ninety_day_projection :=
      { revenue_lift_pct := jsRound (revenueLift * 0.45 * 10) / 10,
        staff_hours_saved_per_week := hoursSavedPerWeek,
        no_show_reduction_pct := noShowReduction,
        payback_months := paybackMonths },
    twelve_month_projection :=
      { revenue_lift_pct := revenueLift,
        total_savings := totalSavings12mo,
        staff_reduction_pct := staffReduction,
        roi_multiple := roiMultiple },
    staff_reduction_pct := staffReduction,
    revenue_lift := revenueLift,
    total_savings := totalSavings12mo,
    recommended_pilot_value := pilotValue }

/-! ## Input validity (the caller pre-validation contract, spec §3/§7)

`ValidInput` keeps every divisor in the `ℚ` embedding nonzero
(`avg_treatment_value > 0`, `no_show_rate < 100`) so the exact-rational
arithmetic coincides with the source's IEEE arithmetic, and no NaN or
Infinity arises in the source on these inputs. -/

def ValidInput (i : DiagnosticInput) : Prop :=
  0 < i.monthly_revenue ∧ 1 ≤ i.staff_count ∧
  0 ≤ i.no_show_rate ∧ i.no_show_rate < 100 ∧
  0 < i.avg_treatment_value ∧ 1 ≤ i.number_of_locations

/-- Refinement fields are dollar amounts; when present they are nonnegative. -/
def ValidDeeper (d : DeeperInput) : Prop :=
  (∀ c ∈ d.staff_hourly_cost, 0 ≤ c) ∧
  (∀ s ∈ d.monthly_marketing_spend, 0 ≤ s) ∧
  (∀ v ∈ d.current_inventory_value, 0 ≤ v)

def ValidDeeperOpt : Option DeeperInput → Prop
  | none => True
  | some d => ValidDeeper d

instance (i : DiagnosticInput) : Decidable (ValidInput i) := by
  unfold ValidInput; infer_instance

instance (d : DeeperInput) : Decidable (ValidDeeper d) := by
  unfold ValidDeeper; infer_instance

instance (d : Option DeeperInput) : Decidable (ValidDeeperOpt d) := by
  cases d <;> (unfold ValidDeeperOpt; infer_instance)

/-! ## Category order and per-category constants

The source pushes the nine categories in a fixed order; `nameOrder` indexes
that construction order by bottleneck name.  `confBonus` and `ciScale`
collect the per-category confidence bonus and CI-multiplier scale factor the
source writes inline (`baseCi + 7`, `ciMult * 1.2`, …). -/

def nameOrder (n : String) : ℕ :=
  if n = "No-Show Revenue Drain" then 0
  else if n = "Schedule Gap Dead Time" then 1
  else if n = "Admin Overhead Burn" then 2
  else if n = "Dormant Patient Revenue" then 3
  else if n = "Chair Utilization Gap" then 4
  else if n = "Staff Idle Wage Burn" then 5
  else if n = "Missed Treatment Upsell" then 6
  else if n = "Inventory Waste & Carrying Cost" then 7
  else if n = "Marketing Spend Blind Spot" then 8
  else 9

def confBonus (n : String) : ℚ :=
  if n = "No-Show Revenue Drain" then 7
  else if n = "Schedule Gap Dead Time" then 4
  else if n = "Admin Overhead Burn" then 3
  else if n = "Dormant Patient Revenue" then 1
  else if n = "Chair Utilization Gap" then 0
  else if n = "Staff Idle Wage Burn" then 5
  else if n = "Missed Treatment Upsell" then 2
  else if n = "Inventory Waste & Carrying Cost" then 1
  else if n = "Marketing Spend Blind Spot" then -1
  else 0

def ciScale (n : String) : ℚ :=
  if n = "Dormant Patient Revenue" then 1.2
  else if n = "Chair Utilization Gap" then 1.3
  else if n = "Inventory Waste & Carrying Cost" then 1.1
  else if n = "Marketing Spend Blind Spot" then 1.2
  else 1

/-! ## Sortedness and stability of the final sort -/

/-- The ordering the sorted output satisfies: non-increasing impact, and on
ties of `impactDollars` the original (category construction) order. -/
def impactOrder (a b : Bottleneck) : Prop :=
  b.impactDollars ≤ a.impactDollars ∧
  (a.impactDollars = b.impactDollars → nameOrder a.name < nameOrder b.name)

instance (a b : Bottleneck) : Decidable (impactOrder a b) := by
  unfold impactOrder; infer_instance

/-! ## Concrete inputs used by the claim theorems -/

/-- Scenario A of the specification (§8). -/
def scenarioA : DiagnosticInput :=
  { clinic_name := "Scenario A", monthly_revenue := 85000, staff_count := 8,
    no_show_rate := 12, avg_treatment_value := 250, number_of_locations := 1 }

/-- The Scenario B refinement record of the specification (§8). -/
def scenarioBDeeper : DeeperInput :=
  { staff_hourly_cost := some 28, monthly_marketing_spend := some 6000,
    current_inventory_value := some 12000, csv_row_count := none }

/-- A refinement record supplied with all four optional fields absent. -/
def emptyDeeper : DeeperInput :=
  { staff_hourly_cost := none, monthly_marketing_spend := none,
    current_inventory_value := none, csv_row_count := none }

/-- Scenario A with `avg_treatment_value = 0` (Scenario E of the spec). -/
def zeroAtvInput : DiagnosticInput :=
  { clinic_name := "Scenario E", monthly_revenue := 85000, staff_count := 8,
    no_show_rate := 12, avg_treatment_value := 0, number_of_locations := 1 }

/-- Scenario A with `no_show_rate = 100`. -/
def fullNoShowInput : DiagnosticInput :=
  { clinic_name := "Full no-show", monthly_revenue := 85000, staff_count := 8,
    no_show_rate := 100, avg_treatment_value := 250, number_of_locations := 1 }

/-- A tiny clinic whose bottleneck impacts all round to zero: $4/month of
revenue, one staff member, no no-shows, $0.004 average treatment value. -/
def tinyClinicInput : DiagnosticInput :=
  { clinic_name := "Tiny", monthly_revenue := 4, staff_count := 1,
    no_show_rate := 0, avg_treatment_value := 1 / 250, number_of_locations := 1 }

/-- Refinement data with all costs zero, so the admin, idle-wage and
inventory impacts vanish and the marketing bottleneck is skipped. -/
def zeroCostDeeper : DeeperInput :=
  { staff_hourly_cost := some 0, monthly_marketing_spend := some 0,
    current_inventory_value := some 0, csv_row_count := none }

theorem jsRound_mono {a b : ℚ} (h : a ≤ b) : jsRound a ≤ jsRound b := by
  unfold jsRound
  exact_mod_cast Int.floor_mono (by linarith)

theorem jsRound_intCast (n : ℤ) : jsRound (n : ℚ) = n := by
  unfold jsRound
  have h : ⌊(n : ℚ) + 1/2⌋ = ⌊(1/2 : ℚ)⌋ + n := by
    rw [add_comm]
    exact Int.floor_add_int (1/2 : ℚ) n
  rw [h]
  norm_num

theorem jsRound_nonneg {q : ℚ} (h : 0 ≤ q) : 0 ≤ jsRound q := by
  have h0 : jsRound (0 : ℚ) = 0 := by
    have := jsRound_intCast 0
    simpa using this
  calc (0 : ℚ) = jsRound 0 := h0.symm
    _ ≤ jsRound q := jsRound_mono h

theorem jsRound_jsRound (q : ℚ) : jsRound (jsRound q) = jsRound q :=
  jsRound_intCast ⌊q + 1/2⌋

/-! ## Unfolding lemmas (all definitional) -/

theorem noShowBottleneck_eq (i : DiagnosticInput) (d : Option DeeperInput) :
    noShowBottleneck i d =
    { name := "No-Show Revenue Drain",
      impactDollars := noShowImpact i d,
      impactPercent := jsRound (noShowImpact i d / (deriveClinicMetrics i d).monthly * 100),
      confidence := min 99 (baseCi d.isSome + 7),
      ciLow := jsRound (noShowImpact i d * (1 - ciMult d.isSome)),
      ciHigh := jsRound (noShowImpact i d * (1 + ciMult d.isSome)) } := rfl

theorem deadTimeBottleneck_eq (i : DiagnosticInput) (d : Option DeeperInput) :
    deadTimeBottleneck i d =
    { name := "Schedule Gap Dead Time",
      impactDollars := deadTimeRevenueLost i d,
      impactPercent := jsRound (deadTimeRevenueLost i d / (deriveClinicMetrics i d).monthly * 100),
      confidence := min 99 (baseCi d.isSome + 4),
      ciLow := jsRound (deadTimeRevenueLost i d * (1 - ciMult d.isSome)),
      ciHigh := jsRound (deadTimeRevenueLost i d * (1 + ciMult d.isSome)) } := rfl

theorem adminBottleneck_eq (i : DiagnosticInput) (d : Option DeeperInput) :
    adminBottleneck i d =
    { name := "Admin Overhead Burn",
      impactDollars := adminAutomatable i d,
      impactPercent := jsRound (adminAutomatable i d / (deriveClinicMetrics i d).monthly * 100),
      confidence := min 99 (baseCi d.isSome + 3),
      ciLow := jsRound (adminAutomatable i d * (1 - ciMult d.isSome)),
      ciHigh := jsRound (adminAutomatable i d * (1 + ciMult d.isSome)) } := rfl

theorem recallBottleneck_eq (i : DiagnosticInput) (d : Option DeeperInput) :
    recallBottleneck i d =
    { name := "Dormant Patient Revenue",
      impactDollars := recallRevenue i d,
      impactPercent := jsRound (recallRevenue i d / (deriveClinicMetrics i d).monthly * 100),
      confidence := min 99 (baseCi d.isSome + 1),
      ciLow := jsRound (recallRevenue i d * (1 - ciMult d.isSome * 1.2)),
      ciHigh := jsRound (recallRevenue i d * (1 + ciMult d.isSome * 1.2)) } := rfl

theorem utilizationBottleneck_eq (i : DiagnosticInput) (d : Option DeeperInput) :
    utilizationBottleneck i d =
    { name := "Chair Utilization Gap",
      impactDollars := utilizationRevenue i d,
      impactPercent := jsRound (utilizationRevenue i d / (deriveClinicMetrics i d).monthly * 100),
      confidence := min 99 (baseCi d.isSome),
      ciLow := jsRound (utilizationRevenue i d * (1 - ciMult d.isSome * 1.3)),
      ciHigh := jsRound (utilizationRevenue i d * (1 + ciMult d.isSome * 1.3)) } := rfl

theorem idleWageBottleneck_eq (i : DiagnosticInput) (dd : DeeperInput) :
    idleWageBottleneck i dd =
    { name := "Staff Idle Wage Burn",
      impactDollars := idleWageCost i dd,
      impactPercent := jsRound (idleWageCost i dd / i.monthly_revenue * 100),
      confidence := min 99 (baseCi true + 5),
      ciLow := jsRound (idleWageCost i dd * (1 - ciMult true)),
      ciHigh := jsRound (idleWageCost i dd * (1 + ciMult true)) } := rfl

theorem upsellBottleneck_eq (i : DiagnosticInput) (dd : DeeperInput) :
    upsellBottleneck i dd =
    { name := "Missed Treatment Upsell",
      impactDollars := missedUpsellRevenue i dd,
      impactPercent := jsRound (missedUpsellRevenue i dd / i.monthly_revenue * 100),
      confidence := min 99 (baseCi true + 2),
      ciLow := jsRound (missedUpsellRevenue i dd * (1 - ciMult true)),
      ciHigh := jsRound (missedUpsellRevenue i dd * (1 + ciMult true)) } := rfl

theorem inventoryBottleneck_eq (i : DiagnosticInput) (dd : DeeperInput) :
    inventoryBottleneck i dd =
    { name := "Inventory Waste & Carrying Cost",
      impactDollars := inventoryWaste i dd,
      impactPercent := jsRound (inventoryWaste i dd / i.monthly_revenue * 100),
      confidence := min 99 (baseCi true + 1),
      ciLow := jsRound (inventoryWaste i dd * (1 - ciMult true * 1.1)),
      ciHigh := jsRound (inventoryWaste i dd * (1 + ciMult true * 1.1)) } := rfl

theorem marketingBottleneck_eq (i : DiagnosticInput) (dd : DeeperInput) :
    marketingBottleneck i dd =
    { name := "Marketing Spend Blind Spot",
      impactDollars := wastedMarketing i dd,
      impactPercent := jsRound (wastedMarketing i dd / i.monthly_revenue * 100),
      confidence := min 99 (baseCi true - 1),
      ciLow := jsRound (wastedMarketing i dd * (1 - ciMult true * 1.2)),
      ciHigh := jsRound (wastedMarketing i dd * (1 + ciMult true * 1.2)) } := rfl

theorem metrics_treatmentsCompleted (i : DiagnosticInput) (d : Option DeeperInput) :
    (deriveClinicMetrics i d).treatmentsCompleted =
    jsRound (i.monthly_revenue / i.avg_treatment_value) := rfl

theorem metrics_grossScheduled (i : DiagnosticInput) (d : Option DeeperInput) :
    (deriveClinicMetrics i d).grossScheduled =
    jsRound ((deriveClinicMetrics i d).treatmentsCompleted / (1 - i.no_show_rate / 100)) := rfl

theorem metrics_noShowAppointments (i : DiagnosticInput) (d : Option DeeperInput) :
    (deriveClinicMetrics i d).noShowAppointments =
    (deriveClinicMetrics i d).grossScheduled - (deriveClinicMetrics i d).treatmentsCompleted := rfl

theorem metrics_providers (i : DiagnosticInput) (d : Option DeeperInput) :
    (deriveClinicMetrics i d).providers =
    max 1 (jsRound (i.staff_count * PROVIDER_FRAC)) := rfl

theorem metrics_providerHoursPerMonth (i : DiagnosticInput) (d : Option DeeperInput) :
    (deriveClinicMetrics i d).providerHoursPerMonth =
    (deriveClinicMetrics i d).providers * STAFF_HOURS_PER_DAY * WORKING_DAYS := rfl

theorem metrics_capacityTreatments (i : DiagnosticInput) (d : Option DeeperInput) :
    (deriveClinicMetrics i d).capacityTreatments =
    jsRound ((deriveClinicMetrics i d).providerHoursPerMonth / AVG_TREATMENT_DURATION_HRS) := rfl

theorem metrics_revenuePerProviderHour (i : DiagnosticInput) (d : Option DeeperInput) :
    (deriveClinicMetrics i d).revenuePerProviderHour =
    i.monthly_revenue / (deriveClinicMetrics i d).providerHoursPerMonth := rfl

theorem metrics_adminHoursPerWeek (i : DiagnosticInput) (d : Option DeeperInput) :
    (deriveClinicMetrics i d).adminHoursPerWeek =
    jsRound (i.staff_count * ADMIN_TIME_FRAC * 40) := rfl

theorem metrics_adminHoursPerMonth (i : DiagnosticInput) (d : Option DeeperInput) :
    (deriveClinicMetrics i d).adminHoursPerMonth =
    jsRound ((deriveClinicMetrics i d).adminHoursPerWeek * WEEKS_PER_MONTH) := rfl

theorem metrics_gapHours (i : DiagnosticInput) (d : Option DeeperInput) :
    (deriveClinicMetrics i d).gapHoursPerProviderPerDay =
    (if i.no_show_rate / 100 > 0.08 then (1.8 : ℚ)
     else if i.no_show_rate / 100 > 0.04 then 1.2 else 0.8) := rfl

theorem metrics_staffHourly (i : DiagnosticInput) (d : Option DeeperInput) :
    (deriveClinicMetrics i d).staffHourly =
    (d.bind DeeperInput.staff_hourly_cost).getD DEFAULT_HOURLY_COST := rfl

theorem metrics_atv (i : DiagnosticInput) (d : Option DeeperInput) :
    (deriveClinicMetrics i d).atv = i.avg_treatment_value := rfl

theorem metrics_monthly (i : DiagnosticInput) (d : Option DeeperInput) :
    (deriveClinicMetrics i d).monthly = i.monthly_revenue := rfl

theorem result_bottlenecks (i : DiagnosticInput) (d : Option DeeperInput) :
    (getMockDiagnosticResult i d).bottlenecks = generateMockBottlenecks i d := rfl

theorem mem_insertByImpact {a x : Bottleneck} {l : List Bottleneck} :
    a ∈ insertByImpact x l ↔ a = x ∨ a ∈ l := by
  induction l with
  | nil => simp [insertByImpact]
  | cons y ys ih =>
      unfold insertByImpact
      by_cases h : x.impactDollars < y.impactDollars
      · simp [h, ih]
        tauto
      · simp [h]

theorem mem_sortByImpact {a : Bottleneck} {l : List Bottleneck} :
    a ∈ sortByImpact l ↔ a ∈ l := by
  induction l with
  | nil => simp [sortByImpact]
  | cons x xs ih =>
      unfold sortByImpact
      rw [mem_insertByImpact, ih]
      simp

theorem pairwise_insertByImpact {x : Bottleneck} {t : List Bottleneck}
    (ht : t.Pairwise impactOrder)
    (hx : ∀ y ∈ t, nameOrder x.name < nameOrder y.name) :
    (insertByImpact x t).Pairwise impactOrder := by
  induction t with
  | nil => simp [insertByImpact]
  | cons y ys ih =>
      rw [List.pairwise_cons] at ht
      obtain ⟨hy, hys⟩ := ht
      unfold insertByImpact
      by_cases h : x.impactDollars < y.impactDollars
      · simp only [if_pos h]
        rw [List.pairwise_cons]
        constructor
        · intro z hz
          rcases mem_insertByImpact.mp hz with hzx | hzys
          · subst hzx
            exact ⟨le_of_lt h, fun heq => absurd heq.symm (ne_of_lt h)⟩
          · exact hy z hzys
        · exact ih hys (fun z hz => hx z (List.mem_cons_of_mem y hz))
      · simp only [if_neg h]
        rw [List.pairwise_cons]
        push_neg at h
        constructor
        · intro z hz
          rcases List.mem_cons.mp hz with hzy | hzys
          · subst hzy
            exact ⟨h, fun _ => hx z (List.mem_cons_self z ys)⟩
          · refine ⟨le_trans (hy z hzys).1 h, fun _ => hx z (List.mem_cons_of_mem y hzys)⟩
        · rw [List.pairwise_cons]
          exact ⟨hy, hys⟩

theorem pairwise_sortByImpact {l : List Bottleneck}
    (hl : l.Pairwise (fun a b => nameOrder a.name < nameOrder b.name)) :
    (sortByImpact l).Pairwise impactOrder := by
  induction l with
  | nil => simp [sortByImpact]
  | cons x xs ih =>
      rw [List.pairwise_cons] at hl
      obtain ⟨hx, hxs⟩ := hl
      unfold sortByImpact
      exact pairwise_insertByImpact (ih hxs)
        (fun y hy => hx y (mem_sortByImpact.mp hy))

theorem nameOrder_noShowB (i : DiagnosticInput) (d : Option DeeperInput) :
    nameOrder (noShowBottleneck i d).name = 0 := rfl
theorem nameOrder_deadTimeB (i : DiagnosticInput) (d : Option DeeperInput) :
    nameOrder (deadTimeBottleneck i d).name = 1 := rfl
theorem nameOrder_adminB (i : DiagnosticInput) (d : Option DeeperInput) :
    nameOrder (adminBottleneck i d).name = 2 := rfl
theorem nameOrder_recallB (i : DiagnosticInput) (d : Option DeeperInput) :
    nameOrder (recallBottleneck i d).name = 3 := rfl
theorem nameOrder_utilB (i : DiagnosticInput) (d : Option DeeperInput) :
    nameOrder (utilizationBottleneck i d).name = 4 := rfl
theorem nameOrder_idleB (i : DiagnosticInput) (dd : DeeperInput) :
    nameOrder (idleWageBottleneck i dd).name = 5 := rfl
theorem nameOrder_upsellB (i : DiagnosticInput) (dd : DeeperInput) :
    nameOrder (upsellBottleneck i dd).name = 6 := rfl
theorem nameOrder_invB (i : DiagnosticInput) (dd : DeeperInput) :
    nameOrder (inventoryBottleneck i dd).name = 7 := rfl
theorem nameOrder_mktB (i : DiagnosticInput) (dd : DeeperInput) :
    nameOrder (marketingBottleneck i dd).name = 8 := rfl

/-- The unsorted array is built strictly in category construction order. -/
theorem pairwise_nameOrder_unsorted (i : DiagnosticInput) (d : Option DeeperInput) :
    (bottlenecksUnsorted i d).Pairwise (fun a b => nameOrder a.name < nameOrder b.name) := by
  unfold bottlenecksUnsorted
  rcases d with _ | dd <;>
    split_ifs <;>
    simp_all [List.pairwise_append, List.pairwise_cons,
      nameOrder_noShowB, nameOrder_deadTimeB, nameOrder_adminB, nameOrder_recallB,
      nameOrder_utilB, nameOrder_idleB, nameOrder_upsellB, nameOrder_invB, nameOrder_mktB] <;>
    split_ifs <;> simp

/-- Membership in the engine's bottleneck list, by construction case. -/
theorem mem_bottlenecksUnsorted {i : DiagnosticInput} {d : Option DeeperInput}
    {b : Bottleneck} (hb : b ∈ bottlenecksUnsorted i d) :
    b = noShowBottleneck i d ∨ b = deadTimeBottleneck i d ∨
    b = adminBottleneck i d ∨ b = recallBottleneck i d ∨
    b = utilizationBottleneck i d ∨
    ∃ dd, d = some dd ∧
      (b = idleWageBottleneck i dd ∨ b = upsellBottleneck i dd ∨
       b = inventoryBottleneck i dd ∨ b = marketingBottleneck i dd) := by
  unfold bottlenecksUnsorted at hb
  rcases d with _ | dd <;> split_ifs at hb <;> simp_all <;> tauto

/-! ## Nonnegativity of the impact estimates on valid inputs -/

theorem treatmentsCompleted_nonneg {i : DiagnosticInput} (d : Option DeeperInput)
    (hi : ValidInput i) : 0 ≤ (deriveClinicMetrics i d).treatmentsCompleted := by
  rw [metrics_treatmentsCompleted]
  exact jsRound_nonneg (div_nonneg (le_of_lt hi.1) (le_of_lt hi.2.2.2.2.1))

theorem noShowAppointments_nonneg {i : DiagnosticInput} (d : Option DeeperInput)
    (hi : ValidInput i) : 0 ≤ (deriveClinicMetrics i d).noShowAppointments := by
  obtain ⟨hm, hs, hns0, hns1, hatv, hl⟩ := hi
  rw [metrics_noShowAppointments, metrics_grossScheduled, sub_nonneg]
  set t := (deriveClinicMetrics i d).treatmentsCompleted with ht
  have htn : 0 ≤ t := treatmentsCompleted_nonneg d ⟨hm, hs, hns0, hns1, hatv, hl⟩
  have hden : 0 < 1 - i.no_show_rate / 100 := by
    have h1 : i.no_show_rate / 100 < 1 := by
      rw [div_lt_one (by norm_num : (0:ℚ) < 100)]
      linarith
    linarith
  have hle : t ≤ t / (1 - i.no_show_rate / 100) := by
    rw [le_div_iff₀ hden]
    have hnum : 0 ≤ i.no_show_rate / 100 := by positivity
    nlinarith
  calc t = jsRound t := by
        rw [ht, metrics_treatmentsCompleted, jsRound_jsRound]
    _ ≤ jsRound (t / (1 - i.no_show_rate / 100)) := jsRound_mono hle

theorem providers_ge_one {i : DiagnosticInput} (d : Option DeeperInput) :
    1 ≤ (deriveClinicMetrics i d).providers := by
  rw [metrics_providers]; exact le_max_left 1 _

theorem providerHours_pos {i : DiagnosticInput} (d : Option DeeperInput) :
    0 < (deriveClinicMetrics i d).providerHoursPerMonth := by
  rw [metrics_providerHoursPerMonth]
  have h1 := providers_ge_one (i := i) d
  unfold STAFF_HOURS_PER_DAY WORKING_DAYS
  nlinarith

theorem revenuePerProviderHour_pos {i : DiagnosticInput} (d : Option DeeperInput)
    (hi : ValidInput i) : 0 < (deriveClinicMetrics i d).revenuePerProviderHour := by
  rw [metrics_revenuePerProviderHour]
  exact div_pos hi.1 (providerHours_pos d)

theorem gapHours_pos {i : DiagnosticInput} (d : Option DeeperInput) :
    0 < (deriveClinicMetrics i d).gapHoursPerProviderPerDay := by
  rw [metrics_gapHours]
  split_ifs <;> norm_num

theorem capacityTreatments_nonneg {i : DiagnosticInput} (d : Option DeeperInput) :
    0 ≤ (deriveClinicMetrics i d).capacityTreatments := by
  rw [metrics_capacityTreatments]
  refine jsRound_nonneg (div_nonneg (le_of_lt (providerHours_pos d)) (by norm_num [AVG_TREATMENT_DURATION_HRS]))

theorem staffHourly_nonneg {i : DiagnosticInput} {d : Option DeeperInput}
    (hd : ValidDeeperOpt d) : 0 ≤ (deriveClinicMetrics i d).staffHourly := by
  rw [metrics_staffHourly]
  rcases d with _ | dd
  · norm_num [DEFAULT_HOURLY_COST]
  · simp only [Option.some_bind]
    rcases hdd : dd.staff_hourly_cost with _ | c
    · simp [hdd, DEFAULT_HOURLY_COST]
    · simp only [hdd, Option.getD_some]
      exact hd.1 c hdd

theorem noShowImpact_nonneg {i : DiagnosticInput} (d : Option DeeperInput)
    (hi : ValidInput i) : 0 ≤ noShowImpact i d := by
  unfold noShowImpact
  refine jsRound_nonneg (mul_nonneg (mul_nonneg (noShowAppointments_nonneg d hi) ?_) (by norm_num))
  rw [metrics_atv]
  exact le_of_lt hi.2.2.2.2.1

theorem deadTimeMonthly_nonneg {i : DiagnosticInput} (d : Option DeeperInput) :
    0 ≤ deadTimeMonthly i d := by
  have h1 := providers_ge_one (i := i) d
  have h2 := gapHours_pos (i := i) d
  show (0:ℚ) ≤ (deriveClinicMetrics i d).providers *
    (deriveClinicMetrics i d).gapHoursPerProviderPerDay * WORKING_DAYS
  unfold WORKING_DAYS
  nlinarith

theorem deadTimeRevenueLost_nonneg {i : DiagnosticInput} (d : Option DeeperInput)
    (hi : ValidInput i) : 0 ≤ deadTimeRevenueLost i d := by
  unfold deadTimeRevenueLost
  exact jsRound_nonneg (mul_nonneg (deadTimeMonthly_nonneg d)
    (le_of_lt (revenuePerProviderHour_pos d hi)))

theorem adminHoursPerMonth_nonneg {i : DiagnosticInput} (d : Option DeeperInput)
    (hi : ValidInput i) : 0 ≤ (deriveClinicMetrics i d).adminHoursPerMonth := by
  rw [metrics_adminHoursPerMonth]
  refine jsRound_nonneg (mul_nonneg ?_ (by norm_num [WEEKS_PER_MONTH]))
  rw [metrics_adminHoursPerWeek]
  refine jsRound_nonneg (mul_nonneg (mul_nonneg ?_ (by norm_num [ADMIN_TIME_FRAC])) (by norm_num))
  linarith [hi.2.1]

theorem adminAutomatable_nonneg {i : DiagnosticInput} {d : Option DeeperInput}
    (hi : ValidInput i) (hd : ValidDeeperOpt d) : 0 ≤ adminAutomatable i d := by
  unfold adminAutomatable adminCostMonthly
  exact jsRound_nonneg (mul_nonneg
    (jsRound_nonneg (mul_nonneg (adminHoursPerMonth_nonneg d hi) (staffHourly_nonneg hd)))
    (by norm_num))

theorem recallRevenue_nonneg {i : DiagnosticInput} (d : Option DeeperInput)
    (hi : ValidInput i) : 0 ≤ recallRevenue i d := by
  unfold recallRevenue recoverablePatients
  refine jsRound_nonneg (mul_nonneg (mul_nonneg
    (jsRound_nonneg (mul_nonneg (treatmentsCompleted_nonneg d hi) (by norm_num))) ?_) (by norm_num))
  rw [metrics_atv]
  exact le_of_lt hi.2.2.2.2.1

theorem utilizationRevenue_nonneg {i : DiagnosticInput} (d : Option DeeperInput)
    (hi : ValidInput i) : 0 ≤ utilizationRevenue i d := by
  unfold utilizationRevenue utilizationGap
  refine jsRound_nonneg (mul_nonneg (mul_nonneg (le_max_left 0 _) (capacityTreatments_nonneg d)) ?_)
  rw [metrics_atv]
  exact le_of_lt hi.2.2.2.2.1

theorem idleWageCost_nonneg {i : DiagnosticInput} {dd : DeeperInput}
    (hd : ValidDeeper dd) : 0 ≤ idleWageCost i dd := by
  unfold idleWageCost
  refine jsRound_nonneg (mul_nonneg (deadTimeMonthly_nonneg (some dd)) ?_)
  rcases hc : dd.staff_hourly_cost with _ | c
  · simp [DEFAULT_HOURLY_COST]
  · simp only [Option.getD_some]
    exact hd.1 c hc

theorem missedUpsellRevenue_nonneg {i : DiagnosticInput} (dd : DeeperInput)
    (hi : ValidInput i) : 0 ≤ missedUpsellRevenue i dd := by
  unfold missedUpsellRevenue upsellOpportunities avgUpsellValue
  refine jsRound_nonneg (mul_nonneg (mul_nonneg
    (jsRound_nonneg (mul_nonneg (treatmentsCompleted_nonneg (some dd) hi) (by norm_num)))
    (jsRound_nonneg (mul_nonneg ?_ (by norm_num)))) (by norm_num))
  rw [metrics_atv]
  exact le_of_lt hi.2.2.2.2.1

theorem inventoryWaste_nonneg {i : DiagnosticInput} {dd : DeeperInput}
    (hi : ValidInput i) (hd : ValidDeeper dd) : 0 ≤ inventoryWaste i dd := by
  unfold inventoryWaste inventoryValue
  refine jsRound_nonneg (mul_nonneg ?_ (by norm_num))
  rcases hv : dd.current_inventory_value with _ | v
  · simp only [Option.getD_none]
    nlinarith [hi.1]
  · simp only [Option.getD_some]
    exact hd.2.2 v hv

theorem wastedMarketing_nonneg {i : DiagnosticInput} {dd : DeeperInput}
    (hi : ValidInput i) (hd : ValidDeeper dd) : 0 ≤ wastedMarketing i dd := by
  unfold wastedMarketing marketingSpend
  refine jsRound_nonneg (mul_nonneg ?_ (by norm_num))
  rcases hs : dd.monthly_marketing_spend with _ | s
  · simp only [Option.getD_none]
    nlinarith [hi.1]
  · simp only [Option.getD_some]
    exact hd.2.1 s hs

/-! ## Confidence and confidence-interval helper lemmas -/

theorem jsRound_isInt (q : ℚ) : ∃ n : ℤ, jsRound q = (n : ℚ) := ⟨⌊q + 1/2⌋, rfl⟩

/-- An integer-valued nonnegative impact `x` satisfies
`round(x * (1 - c)) ≤ x ≤ round(x * (1 + c))` for any `c ≥ 0`. -/
theorem ci_round_bounds {x c : ℚ} (hx : ∃ n : ℤ, x = (n : ℚ))
    (hx0 : 0 ≤ x) (hc : 0 ≤ c) :
    jsRound (x * (1 - c)) ≤ x ∧ x ≤ jsRound (x * (1 + c)) := by
  obtain ⟨n, rfl⟩ := hx
  have hid : jsRound ((n : ℚ)) = (n : ℚ) := jsRound_intCast n
  constructor
  · have h1 : (n : ℚ) * (1 - c) ≤ (n : ℚ) := by nlinarith
    calc jsRound ((n : ℚ) * (1 - c)) ≤ jsRound ((n : ℚ)) := jsRound_mono h1
      _ = (n : ℚ) := hid
  · have h2 : (n : ℚ) ≤ (n : ℚ) * (1 + c) := by nlinarith
    calc (n : ℚ) = jsRound ((n : ℚ)) := hid.symm
      _ ≤ jsRound ((n : ℚ) * (1 + c)) := jsRound_mono h2

theorem baseCi_ge_85 (δ : Bool) : 85 ≤ baseCi δ := by
  cases δ <;> norm_num [baseCi]

theorem ciMult_nonneg (δ : Bool) : 0 ≤ ciMult δ := by
  cases δ <;> norm_num [ciMult]

theorem conf_bounds {δ : Bool} {k : ℚ} (hk : -1 ≤ k) :
    0 ≤ min (99:ℚ) (baseCi δ + k) ∧ min (99:ℚ) (baseCi δ + k) ≤ 99 := by
  have h := baseCi_ge_85 δ
  exact ⟨le_min (by norm_num) (by linarith), min_le_left _ _⟩

theorem confBonus_noShow : confBonus "No-Show Revenue Drain" = 7 := rfl
theorem confBonus_deadTime : confBonus "Schedule Gap Dead Time" = 4 := rfl
theorem confBonus_admin : confBonus "Admin Overhead Burn" = 3 := rfl
theorem confBonus_recall : confBonus "Dormant Patient Revenue" = 1 := rfl
theorem confBonus_util : confBonus "Chair Utilization Gap" = 0 := rfl
theorem confBonus_idle : confBonus "Staff Idle Wage Burn" = 5 := rfl
theorem confBonus_upsell : confBonus "Missed Treatment Upsell" = 2 := rfl
theorem confBonus_inv : confBonus "Inventory Waste & Carrying Cost" = 1 := rfl
theorem confBonus_mkt : confBonus "Marketing Spend Blind Spot" = -1 := rfl

theorem ciScale_noShow : ciScale "No-Show Revenue Drain" = 1 := rfl
theorem ciScale_deadTime : ciScale "Schedule Gap Dead Time" = 1 := rfl
theorem ciScale_admin : ciScale "Admin Overhead Burn" = 1 := rfl
theorem ciScale_recall : ciScale "Dormant Patient Revenue" = 1.2 := rfl
theorem ciScale_util : ciScale "Chair Utilization Gap" = 1.3 := rfl
theorem ciScale_idle : ciScale "Staff Idle Wage Burn" = 1 := rfl
theorem ciScale_upsell : ciScale "Missed Treatment Upsell" = 1 := rfl
theorem ciScale_inv : ciScale "Inventory Waste & Carrying Cost" = 1.1 := rfl
theorem ciScale_mkt : ciScale "Marketing Spend Blind Spot" = 1.2 := rfl

/-- Every bottleneck the engine returns carries confidence
`min(99, baseConfidence + per-category bonus)`. -/
theorem bottleneck_confidence_formula {i : DiagnosticInput} {d : Option DeeperInput}
    {b : Bottleneck} (hb : b ∈ generateMockBottlenecks i d) :
    b.confidence = min 99 (baseCi d.isSome + confBonus b.name) := by
  have hb' := mem_sortByImpact.mp hb
  rcases mem_bottlenecksUnsorted hb' with h | h | h | h | h | ⟨dd, hdd, h⟩
  · subst h; rw [noShowBottleneck_eq]; simp [confBonus_noShow]
  · subst h; rw [deadTimeBottleneck_eq]; simp [confBonus_deadTime]
  · subst h; rw [adminBottleneck_eq]; simp [confBonus_admin]
  · subst h; rw [recallBottleneck_eq]; simp [confBonus_recall]
  · subst h; rw [utilizationBottleneck_eq]; simp [confBonus_util]
  · subst hdd
    rcases h with h | h | h | h
    · subst h; rw [idleWageBottleneck_eq]; simp [confBonus_idle]
    · subst h; rw [upsellBottleneck_eq]; simp [confBonus_upsell]
    · subst h; rw [inventoryBottleneck_eq]; simp [confBonus_inv]
    · subst h; rw [marketingBottleneck_eq]; simp [confBonus_mkt, sub_eq_add_neg]

/-- Every bottleneck's CI bounds come from the mode multiplier scaled by the
per-category factor. -/
theorem bottleneck_ci_formula {i : DiagnosticInput} {d : Option DeeperInput}
    {b : Bottleneck} (hb : b ∈ generateMockBottlenecks i d) :
    b.ciLow = jsRound (b.impactDollars * (1 - ciMult d.isSome * ciScale b.name)) ∧
    b.ciHigh = jsRound (b.impactDollars * (1 + ciMult d.isSome * ciScale b.name)) := by
  have hb' := mem_sortByImpact.mp hb
  rcases mem_bottlenecksUnsorted hb' with h | h | h | h | h | ⟨dd, hdd, h⟩
  · subst h; rw [noShowBottleneck_eq]; simp [ciScale_noShow]
  · subst h; rw [deadTimeBottleneck_eq]; simp [ciScale_deadTime]
  · subst h; rw [adminBottleneck_eq]; simp [ciScale_admin]
  · subst h; rw [recallBottleneck_eq]; simp [ciScale_recall]
  · subst h; rw [utilizationBottleneck_eq]; simp [ciScale_util]
  · subst hdd
    rcases h with h | h | h | h
    · subst h; rw [idleWageBottleneck_eq]; simp [ciScale_idle]
    · subst h; rw [upsellBottleneck_eq]; simp [ciScale_upsell]
    · subst h; rw [inventoryBottleneck_eq]; simp [ciScale_inv]
    · subst h; rw [marketingBottleneck_eq]; simp [ciScale_mkt]

theorem noShowB_name (i : DiagnosticInput) (d : Option DeeperInput) :
    (noShowBottleneck i d).name = "No-Show Revenue Drain" := rfl
theorem deadTimeB_name (i : DiagnosticInput) (d : Option DeeperInput) :
    (deadTimeBottleneck i d).name = "Schedule Gap Dead Time" := rfl
theorem adminB_name (i : DiagnosticInput) (d : Option DeeperInput) :
    (adminBottleneck i d).name = "Admin Overhead Burn" := rfl
theorem recallB_name (i : DiagnosticInput) (d : Option DeeperInput) :
    (recallBottleneck i d).name = "Dormant Patient Revenue" := rfl
theorem utilB_name (i : DiagnosticInput) (d : Option DeeperInput) :
    (utilizationBottleneck i d).name = "Chair Utilization Gap" := rfl
theorem idleB_name (i : DiagnosticInput) (dd : DeeperInput) :
    (idleWageBottleneck i dd).name = "Staff Idle Wage Burn" := rfl
theorem upsellB_name (i : DiagnosticInput) (dd : DeeperInput) :
    (upsellBottleneck i dd).name = "Missed Treatment Upsell" := rfl
theorem invB_name (i : DiagnosticInput) (dd : DeeperInput) :
    (inventoryBottleneck i dd).name = "Inventory Waste & Carrying Cost" := rfl
theorem mktB_name (i : DiagnosticInput) (dd : DeeperInput) :
    (marketingBottleneck i dd).name = "Marketing Spend Blind Spot" := rfl

/-- The per-category constants all lie in the ranges the source uses:
bonus in `[-1, 7]`, CI scale in `[1, 1.3]`. -/
theorem bonus_scale_range {i : DiagnosticInput} {d : Option DeeperInput}
    {b : Bottleneck} (hb : b ∈ generateMockBottlenecks i d) :
    -1 ≤ confBonus b.name ∧ confBonus b.name ≤ 7 ∧
    1 ≤ ciScale b.name ∧ ciScale b.name ≤ 1.3 := by
  rcases mem_bottlenecksUnsorted (mem_sortByImpact.mp hb) with h | h | h | h | h | ⟨dd, hdd, h⟩
  · subst h; rw [noShowB_name, confBonus_noShow, ciScale_noShow]; norm_num
  · subst h; rw [deadTimeB_name, confBonus_deadTime, ciScale_deadTime]; norm_num
  · subst h; rw [adminB_name, confBonus_admin, ciScale_admin]; norm_num
  · subst h; rw [recallB_name, confBonus_recall, ciScale_recall]; norm_num
  · subst h; rw [utilB_name, confBonus_util, ciScale_util]; norm_num
  · rcases h with h | h | h | h
    · subst h; rw [idleB_name, confBonus_idle, ciScale_idle]; norm_num
    · subst h; rw [upsellB_name, confBonus_upsell, ciScale_upsell]; norm_num
    · subst h; rw [invB_name, confBonus_inv, ciScale_inv]; norm_num
    · subst h; rw [mktB_name, confBonus_mkt, ciScale_mkt]; norm_num

/-- Combines the confidence and CI-bound facts into the shape of the
invariant claim. -/
theorem bounds_of_components {imp cl ch conf : ℚ} {δ : Bool} {k c : ℚ}
    (hconf : conf = min 99 (baseCi δ + k)) (hk : -1 ≤ k)
    (hcl : cl = jsRound (imp * (1 - c))) (hch : ch = jsRound (imp * (1 + c)))
    (hint : ∃ n : ℤ, imp = (n : ℚ)) (h0 : 0 ≤ imp) (hc : 0 ≤ c) :
    0 ≤ conf ∧ conf ≤ 99 ∧ cl ≤ imp ∧ imp ≤ ch := by
  subst hconf; subst hcl; subst hch
  obtain ⟨hlo, hhi⟩ := ci_round_bounds hint h0 hc
  obtain ⟨h1, h2⟩ := conf_bounds hk
  exact ⟨h1, h2, hlo, hhi⟩

theorem noShowB_mem (i : DiagnosticInput) (d : Option DeeperInput) :
    noShowBottleneck i d ∈ generateMockBottlenecks i d := by
  unfold generateMockBottlenecks
  rw [mem_sortByImpact]
  unfold bottlenecksUnsorted
  simp

theorem mktB_mem (i : DiagnosticInput) (dd : DeeperInput)
    (h : 0 < marketingSpend i dd) :
    marketingBottleneck i dd ∈ generateMockBottlenecks i (some dd) := by
  unfold generateMockBottlenecks
  rw [mem_sortByImpact]
  unfold bottlenecksUnsorted
  simp [h]

theorem noShowImpact_isInt (i : DiagnosticInput) (d : Option DeeperInput) :
    ∃ n : ℤ, noShowImpact i d = (n : ℚ) := by
  unfold noShowImpact; exact jsRound_isInt _

theorem deadTimeRevenueLost_isInt (i : DiagnosticInput) (d : Option DeeperInput) :
    ∃ n : ℤ, deadTimeRevenueLost i d = (n : ℚ) := by
  unfold deadTimeRevenueLost; exact jsRound_isInt _

theorem adminAutomatable_isInt (i : DiagnosticInput) (d : Option DeeperInput) :
    ∃ n : ℤ, adminAutomatable i d = (n : ℚ) := by
  unfold adminAutomatable; exact jsRound_isInt _

theorem recallRevenue_isInt (i : DiagnosticInput) (d : Option DeeperInput) :
    ∃ n : ℤ, recallRevenue i d = (n : ℚ) := by
  unfold recallRevenue; exact jsRound_isInt _

theorem utilizationRevenue_isInt (i : DiagnosticInput) (d : Option DeeperInput) :
    ∃ n : ℤ, utilizationRevenue i d = (n : ℚ) := by
  unfold utilizationRevenue; exact jsRound_isInt _

theorem idleWageCost_isInt (i : DiagnosticInput) (dd : DeeperInput) :
    ∃ n : ℤ, idleWageCost i dd = (n : ℚ) := by
  unfold idleWageCost; exact jsRound_isInt _

theorem missedUpsellRevenue_isInt (i : DiagnosticInput) (dd : DeeperInput) :
    ∃ n : ℤ, missedUpsellRevenue i dd = (n : ℚ) := by
  unfold missedUpsellRevenue; exact jsRound_isInt _

theorem inventoryWaste_isInt (i : DiagnosticInput) (dd : DeeperInput) :
    ∃ n : ℤ, inventoryWaste i dd = (n : ℚ) := by
  unfold inventoryWaste; exact jsRound_isInt _

theorem wastedMarketing_isInt (i : DiagnosticInput) (dd : DeeperInput) :
    ∃ n : ℤ, wastedMarketing i dd = (n : ℚ) := by
  unfold wastedMarketing; exact jsRound_isInt _

/-- **C7.** Every returned bottleneck has confidence in `[0, 99]` and CI
bounds bracketing its impact. -/
theorem bottleneck_confidence_ci_invariant (i : DiagnosticInput) (d : Option DeeperInput)
    (hi : ValidInput i) (hd : ValidDeeperOpt d) (b : Bottleneck)
    (hb : b ∈ (getMockDiagnosticResult i d).bottlenecks) :
    0 ≤ b.confidence ∧ b.confidence ≤ 99 ∧
    b.ciLow ≤ b.impactDollars ∧ b.impactDollars ≤ b.ciHigh := by
  have hb2 : b ∈ bottlenecksUnsorted i d := mem_sortByImpact.mp hb
  rcases mem_bottlenecksUnsorted hb2 with h | h | h | h | h | ⟨dd, hdd, h⟩
  · subst h
    exact bounds_of_components (δ := d.isSome) (k := 7) (c := ciMult d.isSome)
      rfl (by norm_num) rfl rfl (noShowImpact_isInt i d)
      (noShowImpact_nonneg d hi) (ciMult_nonneg _)
  · subst h
    exact bounds_of_components (δ := d.isSome) (k := 4) (c := ciMult d.isSome)
      rfl (by norm_num) rfl rfl (deadTimeRevenueLost_isInt i d)
      (deadTimeRevenueLost_nonneg d hi) (ciMult_nonneg _)
  · subst h
    exact bounds_of_components (δ := d.isSome) (k := 3) (c := ciMult d.isSome)
      rfl (by norm_num) rfl rfl (adminAutomatable_isInt i d)
      (adminAutomatable_nonneg hi hd) (ciMult_nonneg _)
  · subst h
    exact bounds_of_components (δ := d.isSome) (k := 1) (c := ciMult d.isSome * 1.2)
      rfl (by norm_num) rfl rfl (recallRevenue_isInt i d)
      (recallRevenue_nonneg d hi) (mul_nonneg (ciMult_nonneg _) (by norm_num))
  · subst h
    refine bounds_of_components (δ := d.isSome) (k := 0) (c := ciMult d.isSome * 1.3)
      ?_ (by norm_num) rfl rfl (utilizationRevenue_isInt i d)
      (utilizationRevenue_nonneg d hi) (mul_nonneg (ciMult_nonneg _) (by norm_num))
    rw [utilizationBottleneck_eq]
    norm_num
  · subst hdd
    rcases h with h | h | h | h
    · subst h
      exact bounds_of_components (δ := true) (k := 5) (c := ciMult true)
        rfl (by norm_num) rfl rfl (idleWageCost_isInt i dd)
        (idleWageCost_nonneg hd) (ciMult_nonneg _)
    · subst h
      exact bounds_of_components (δ := true) (k := 2) (c := ciMult true)
        rfl (by norm_num) rfl rfl (missedUpsellRevenue_isInt i dd)
        (missedUpsellRevenue_nonneg dd hi) (ciMult_nonneg _)
    · subst h
      exact bounds_of_components (δ := true) (k := 1) (c := ciMult true * 1.1)
        rfl (by norm_num) rfl rfl (inventoryWaste_isInt i dd)
        (inventoryWaste_nonneg hi hd) (mul_nonneg (ciMult_nonneg _) (by norm_num))
    · subst h
      refine bounds_of_components (δ := true) (k := -1) (c := ciMult true * 1.2)
        ?_ (by norm_num) rfl rfl (wastedMarketing_isInt i dd)
        (wastedMarketing_nonneg hi hd) (mul_nonneg (ciMult_nonneg _) (by norm_num))
      rw [marketingBottleneck_eq]
      norm_num [sub_eq_add_neg]

/-- Witness for `bottleneck_confidence_ci_invariant`: the no-show bottleneck
of Scenario A, basic mode. -/
theorem bottleneck_confidence_ci_invariant_witness :
    ValidInput scenarioA ∧
    (0 ≤ (noShowBottleneck scenarioA none).confidence ∧
     (noShowBottleneck scenarioA none).confidence ≤ 99 ∧
     (noShowBottleneck scenarioA none).ciLow ≤ (noShowBottleneck scenarioA none).impactDollars ∧
     (noShowBottleneck scenarioA none).impactDollars ≤ (noShowBottleneck scenarioA none).ciHigh) :=
  ⟨by decide, bottleneck_confidence_ci_invariant scenarioA none (by decide) (by trivial)
    (noShowBottleneck scenarioA none) (noShowB_mem scenarioA none)⟩

/-- **C8 (amended).** Each bottleneck's confidence is
`min(99, base + per-category bonus)` with bonus in `[-1, 7]` (the marketing
category uses `-1`), and its CI bounds use the mode multiplier times a
per-category scale in `[1, 1.3]`. -/
theorem per_category_bonus_scale_amended (i : DiagnosticInput) (d : Option DeeperInput)
    (hi : ValidInput i) (hd : ValidDeeperOpt d) (b : Bottleneck)
    (hb : b ∈ (getMockDiagnosticResult i d).bottlenecks) :
    b.confidence = min 99 (baseCi d.isSome + confBonus b.name) ∧
    -1 ≤ confBonus b.name ∧ confBonus b.name ≤ 7 ∧
    b.ciLow = jsRound (b.impactDollars * (1 - ciMult d.isSome * ciScale b.name)) ∧
    b.ciHigh = jsRound (b.impactDollars * (1 + ciMult d.isSome * ciScale b.name)) ∧
    1 ≤ ciScale b.name ∧ ciScale b.name ≤ 1.3 := by
  have h1 := bottleneck_confidence_formula hb
  have h2 := bottleneck_ci_formula hb
  have h3 := bonus_scale_range hb
  exact ⟨h1, h3.1, h3.2.1, h2.1, h2.2, h3.2.2.1, h3.2.2.2⟩

/-- Witness for `per_category_bonus_scale_amended`. -/
theorem per_category_bonus_scale_amended_witness :
    ValidInput scenarioA ∧
    ((noShowBottleneck scenarioA none).confidence =
       min 99 (baseCi (none : Option DeeperInput).isSome +
         confBonus (noShowBottleneck scenarioA none).name) ∧
     -1 ≤ confBonus (noShowBottleneck scenarioA none).name ∧
     confBonus (noShowBottleneck scenarioA none).name ≤ 7 ∧
     (noShowBottleneck scenarioA none).ciLow =
       jsRound ((noShowBottleneck scenarioA none).impactDollars *
         (1 - ciMult (none : Option DeeperInput).isSome *
           ciScale (noShowBottleneck scenarioA none).name)) ∧
     (noShowBottleneck scenarioA none).ciHigh =
       jsRound ((noShowBottleneck scenarioA none).impactDollars *
         (1 + ciMult (none : Option DeeperInput).isSome *
           ciScale (noShowBottleneck scenarioA none).name)) ∧
     1 ≤ ciScale (noShowBottleneck scenarioA none).name ∧
     ciScale (noShowBottleneck scenarioA none).name ≤ 1.3) :=
  ⟨by decide, per_category_bonus_scale_amended scenarioA none (by decide) (by trivial)
    (noShowBottleneck scenarioA none) (noShowB_mem scenarioA none)⟩

/-- **C8 (counterexample).** The marketing category's bonus is `-1`, not in
`[0, 7]`: in a deeper run its confidence is 92, below the deeper base
confidence 93, which `min(99, 93 + bonus)` can never produce for any
bonus ≥ 0. -/
theorem marketing_bonus_negative_counterexample :
    marketingBottleneck scenarioA scenarioBDeeper ∈
      (getMockDiagnosticResult scenarioA (some scenarioBDeeper)).bottlenecks ∧
    (marketingBottleneck scenarioA scenarioBDeeper).confidence = 92 ∧
    ¬ ∃ k : ℚ, 0 ≤ k ∧ k ≤ 7 ∧
        (marketingBottleneck scenarioA scenarioBDeeper).confidence =
          min 99 (baseCi true + k) := by
  have hc : (marketingBottleneck scenarioA scenarioBDeeper).confidence = 92 := by
    rw [marketingBottleneck_eq]
    norm_num [baseCi]
  refine ⟨?_, hc, ?_⟩
  · exact mktB_mem scenarioA scenarioBDeeper (by norm_num [marketingSpend, scenarioBDeeper])
  · rintro ⟨k, hk0, hk7, heq⟩
    rw [hc] at heq
    have hb93 : baseCi true = 93 := rfl
    have h93 : (93:ℚ) ≤ min 99 (baseCi true + k) := by
      rw [hb93]
      exact le_min (by norm_num) (by linarith)
    rw [← heq] at h93
    norm_num at h93

/-- **C9.** For a fixed clinic input, a category present in both the basic
and the deeper run has deeper confidence ≥ basic confidence, and the deeper
CI multiplier (0.05) is at most the basic one (0.12). -/
theorem deeper_mode_confidence_monotone (i : DiagnosticInput) (d : DeeperInput)
    (hi : ValidInput i) (hd : ValidDeeper d) (b1 b2 : Bottleneck)
    (hb1 : b1 ∈ (getMockDiagnosticResult i none).bottlenecks)
    (hb2 : b2 ∈ (getMockDiagnosticResult i (some d)).bottlenecks)
    (hname : b1.name = b2.name) :
    b1.confidence ≤ b2.confidence ∧ ciMult true ≤ ciMult false := by
  constructor
  · have h1 := bottleneck_confidence_formula (i := i) (d := none) hb1
    have h2 := bottleneck_confidence_formula (i := i) (d := some d) hb2
    rw [h1, h2, ← hname]
    simp only [Option.isSome_none, Option.isSome_some]
    have hb85 : baseCi false = 85 := rfl
    have hb93 : baseCi true = 93 := rfl
    rw [hb85, hb93]
    exact min_le_min le_rfl (by linarith)
  · norm_num [ciMult]

/-- Witness for `deeper_mode_confidence_monotone`: the no-show category at
Scenario A, basic vs the Scenario B refinement. -/
theorem deeper_mode_confidence_monotone_witness :
    ValidInput scenarioA ∧ ValidDeeper scenarioBDeeper ∧
    (noShowBottleneck scenarioA none).confidence ≤
      (noShowBottleneck scenarioA (some scenarioBDeeper)).confidence ∧
    ciMult true ≤ ciMult false :=
  ⟨by decide, by decide,
   (deeper_mode_confidence_monotone scenarioA scenarioBDeeper (by decide) (by decide)
      (noShowBottleneck scenarioA none) (noShowBottleneck scenarioA (some scenarioBDeeper))
      (noShowB_mem scenarioA none) (noShowB_mem scenarioA (some scenarioBDeeper)) rfl).1,
   (deeper_mode_confidence_monotone scenarioA scenarioBDeeper (by decide) (by decide)
      (noShowBottleneck scenarioA none) (noShowBottleneck scenarioA (some scenarioBDeeper))
      (noShowB_mem scenarioA none) (noShowB_mem scenarioA (some scenarioBDeeper)) rfl).2⟩

/-- **C10.** For every input, the four top-line scalar fields of the result
agree with the projection sub-objects. -/
theorem topline_projection_consistency (i : DiagnosticInput) (d : Option DeeperInput)
    (hi : ValidInput i) :
    (getMockDiagnosticResult i d).staff_reduction_pct =
      (getMockDiagnosticResult i d).twelve_month_projection.staff_reduction_pct ∧
    (getMockDiagnosticResult i d).revenue_lift =
      (getMockDiagnosticResult i d).twelve_month_projection.revenue_lift_pct ∧
    (getMockDiagnosticResult i d).total_savings =
      (getMockDiagnosticResult i d).twelve_month_projection.total_savings ∧
    (getMockDiagnosticResult i d).ninety_day_projection.revenue_lift_pct =
      jsRound ((getMockDiagnosticResult i d).revenue_lift * 0.45 * 10) / 10 :=
  ⟨rfl, rfl, rfl, rfl⟩

/-- Witness for `topline_projection_consistency` at Scenario A. -/
theorem topline_projection_consistency_witness :
    ValidInput scenarioA ∧
    ((getMockDiagnosticResult scenarioA none).staff_reduction_pct =
      (getMockDiagnosticResult scenarioA none).twelve_month_projection.staff_reduction_pct ∧
    (getMockDiagnosticResult scenarioA none).revenue_lift =
      (getMockDiagnosticResult scenarioA none).twelve_month_projection.revenue_lift_pct ∧
    (getMockDiagnosticResult scenarioA none).total_savings =
      (getMockDiagnosticResult scenarioA none).twelve_month_projection.total_savings ∧
    (getMockDiagnosticResult scenarioA none).ninety_day_projection.revenue_lift_pct =
      jsRound ((getMockDiagnosticResult scenarioA none).revenue_lift * 0.45 * 10) / 10) :=
  ⟨by decide, topline_projection_consistency scenarioA none (by decide)⟩

/-- **C5 (amended).** The run is in deeper mode iff the refinement record
itself is supplied (`!!deeper` in the source), regardless of whether any of
its fields is present: the 90-day no-show-reduction marker is 55 exactly
when the record is present. -/
theorem deeper_mode_iff_record_supplied (i : DiagnosticInput) (d : Option DeeperInput) :
    (getMockDiagnosticResult i d).ninety_day_projection.no_show_reduction_pct =
      (if d.isSome then 55 else 42) := by
  cases d <;> rfl

/-- **C6.** The returned bottleneck list is non-increasing in
`impactDollars`, and equal impacts keep the fixed category construction
order. -/
theorem bottlenecks_sorted_desc_stable (i : DiagnosticInput) (d : Option DeeperInput)
    (hi : ValidInput i) (hd : ValidDeeperOpt d) :
    ((getMockDiagnosticResult i d).bottlenecks).Pairwise impactOrder := by
  rw [result_bottlenecks]
  exact pairwise_sortByImpact (pairwise_nameOrder_unsorted i d)

/-- Witness for `bottlenecks_sorted_desc_stable` at Scenario A. -/
theorem bottlenecks_sorted_desc_stable_witness :
    ValidInput scenarioA ∧
    ((getMockDiagnosticResult scenarioA none).bottlenecks).Pairwise impactOrder :=
  ⟨by decide, bottlenecks_sorted_desc_stable scenarioA none (by decide) (by trivial)⟩

/-- **C5 (counterexample).** A refinement record with all four of its fields
absent still switches the engine to deeper mode (no-show reduction marker 55
and 9 bottlenecks), contradicting "presence of ANY field" as the trigger. -/
theorem empty_refinement_record_triggers_deeper :
    emptyDeeper.staff_hourly_cost = none ∧
    emptyDeeper.monthly_marketing_spend = none ∧
    emptyDeeper.current_inventory_value = none ∧
    emptyDeeper.csv_row_count = none ∧
    (getMockDiagnosticResult scenarioA
        (some emptyDeeper)).ninety_day_projection.no_show_reduction_pct = 55 ∧
    (getMockDiagnosticResult scenarioA (some emptyDeeper)).bottlenecks.length = 9 ∧
    (getMockDiagnosticResult scenarioA
        none).ninety_day_projection.no_show_reduction_pct = 42 := by
  refine ⟨rfl, rfl, rfl, rfl, rfl, ?_, rfl⟩
  norm_num [getMockDiagnosticResult, generateMockBottlenecks, bottlenecksUnsorted,
    sortByImpact, insertByImpact, noShowBottleneck, deadTimeBottleneck, adminBottleneck,
    recallBottleneck, utilizationBottleneck, idleWageBottleneck, upsellBottleneck,
    inventoryBottleneck, marketingBottleneck, noShowImpact, deadTimeMonthly,
    deadTimeRevenueLost, adminCostMonthly, adminAutomatable, recoverablePatients,
    recallRevenue, utilizationGap, utilizationRevenue, marketingSpend, inventoryValue,
    idleWageCost, avgUpsellValue, upsellOpportunities, missedUpsellRevenue, inventoryWaste,
    wastedMarketing, deriveClinicMetrics, baseCi, ciMult, jsRound, scenarioA, emptyDeeper,
    WORKING_DAYS, WEEKS_PER_MONTH, STAFF_HOURS_PER_DAY, AVG_TREATMENT_DURATION_HRS,
    BEST_IN_CLASS_UTILIZATION, PROVIDER_FRAC, ADMIN_TIME_FRAC, DEFAULT_HOURLY_COST]

/-- **C1 (counterexample).** On Scenario A the revenue-lift percent is
149.1, far above the claimed bound 22: the chair-utilization bottleneck
(about $164k against $85k monthly revenue) dominates the total. -/
theorem scenarioA_revenueLift_not_below_22 :
    (getMockDiagnosticResult scenarioA none).revenue_lift = 1491 / 10 ∧
    ¬ ((getMockDiagnosticResult scenarioA none).revenue_lift < 22) := by
  have h : (getMockDiagnosticResult scenarioA none).revenue_lift = 1491 / 10 := by
    norm_num [getMockDiagnosticResult, generateMockBottlenecks, bottlenecksUnsorted,
      sortByImpact, insertByImpact, noShowBottleneck, deadTimeBottleneck, adminBottleneck,
      recallBottleneck, utilizationBottleneck, idleWageBottleneck, upsellBottleneck,
      inventoryBottleneck, marketingBottleneck, noShowImpact, deadTimeMonthly,
      deadTimeRevenueLost, adminCostMonthly, adminAutomatable, recoverablePatients,
      recallRevenue, utilizationGap, utilizationRevenue, marketingSpend, inventoryValue,
      idleWageCost, avgUpsellValue, upsellOpportunities, missedUpsellRevenue, inventoryWaste,
      wastedMarketing, deriveClinicMetrics, baseCi, ciMult, jsRound, scenarioA,
      WORKING_DAYS, WEEKS_PER_MONTH, STAFF_HOURS_PER_DAY, AVG_TREATMENT_DURATION_HRS,
      BEST_IN_CLASS_UTILIZATION, PROVIDER_FRAC, ADMIN_TIME_FRAC, DEFAULT_HOURLY_COST]
  refine ⟨h, ?_⟩
  rw [h]
  norm_num

/-- **C1 (amended).** Scenario A yields exactly 5 bottlenecks, a recommended
pilot value of 8000, and a positive revenue-lift percent (149.1). -/
theorem scenarioA_five_bottlenecks_pilot_8000_lift_positive :
    (getMockDiagnosticResult scenarioA none).bottlenecks.length = 5 ∧
    (getMockDiagnosticResult scenarioA none).recommended_pilot_value = 8000 ∧
    0 < (getMockDiagnosticResult scenarioA none).revenue_lift := by
  norm_num [getMockDiagnosticResult, generateMockBottlenecks, bottlenecksUnsorted,
    sortByImpact, insertByImpact, noShowBottleneck, deadTimeBottleneck, adminBottleneck,
    recallBottleneck, utilizationBottleneck, idleWageBottleneck, upsellBottleneck,
    inventoryBottleneck, marketingBottleneck, noShowImpact, deadTimeMonthly,
    deadTimeRevenueLost, adminCostMonthly, adminAutomatable, recoverablePatients,
    recallRevenue, utilizationGap, utilizationRevenue, marketingSpend, inventoryValue,
    idleWageCost, avgUpsellValue, upsellOpportunities, missedUpsellRevenue, inventoryWaste,
    wastedMarketing, deriveClinicMetrics, baseCi, ciMult, jsRound, scenarioA,
    WORKING_DAYS, WEEKS_PER_MONTH, STAFF_HOURS_PER_DAY, AVG_TREATMENT_DURATION_HRS,
    BEST_IN_CLASS_UTILIZATION, PROVIDER_FRAC, ADMIN_TIME_FRAC, DEFAULT_HOURLY_COST]

/-- **C2 (code evaluation).** At `avg_treatment_value = 0` the source's
`Math.round(monthly / atv)` is `Infinity`, not the 0 the specification's
policy prescribes, and `noShowAppointments` becomes `NaN`
(`Infinity - Infinity`), so a non-finite value appears in the engine. -/
theorem zero_atv_yields_infinite_treatments :
    (deriveClinicMetricsJS zeroAtvInput none).treatmentsCompleted = JSNum.inf ∧
    (deriveClinicMetricsJS zeroAtvInput none).treatmentsCompleted ≠ JSNum.num 0 ∧
    (deriveClinicMetricsJS zeroAtvInput none).noShowAppointments = JSNum.nan := by
  norm_num [deriveClinicMetricsJS, zeroAtvInput, JSNum.div, JSNum.rnd, JSNum.sub,
    JSNum.add, JSNum.neg, JSNum.mul, JSNum.maxJ, JSNum.minJ, JSNum.gtb, jsRound,
    WORKING_DAYS, WEEKS_PER_MONTH, STAFF_HOURS_PER_DAY, AVG_TREATMENT_DURATION_HRS,
    PROVIDER_FRAC, ADMIN_TIME_FRAC, DEFAULT_HOURLY_COST]
  decide

/-- **C3 (code evaluation).** At `no_show_rate = 100` the source's
back-calculation divides by zero: `grossScheduled` and `noShowAppointments`
are `Infinity`, not finite values produced by any 99% cap. -/
theorem full_noShow_yields_infinite_grossScheduled :
    (deriveClinicMetricsJS fullNoShowInput none).grossScheduled = JSNum.inf ∧
    (deriveClinicMetricsJS fullNoShowInput none).noShowAppointments = JSNum.inf := by
  norm_num [deriveClinicMetricsJS, fullNoShowInput, JSNum.div, JSNum.rnd, JSNum.sub,
    JSNum.add, JSNum.neg, JSNum.mul, JSNum.maxJ, JSNum.minJ, JSNum.gtb, jsRound,
    WORKING_DAYS, WEEKS_PER_MONTH, STAFF_HOURS_PER_DAY, AVG_TREATMENT_DURATION_HRS,
    PROVIDER_FRAC, ADMIN_TIME_FRAC, DEFAULT_HOURLY_COST]

/-- **C4 (code evaluation).** On an input whose bottleneck impacts all round
to zero, `recoverableMonthly = 0` (so `total_savings = 0`) and
`paybackMonths = Math.max(1, Math.ceil(8000 / 0)) = Infinity`: the raw IEEE
division result, not a defined sentinel constant. -/
theorem zero_recoverable_payback_infinite :
    (getMockDiagnosticResult tinyClinicInput (some zeroCostDeeper)).total_savings = 0 ∧
    (getMockDiagnosticResult tinyClinicInput
        (some zeroCostDeeper)).ninety_day_projection.payback_months = JSNum.inf := by
  norm_num [getMockDiagnosticResult, generateMockBottlenecks, bottlenecksUnsorted,
    sortByImpact, insertByImpact, noShowBottleneck, deadTimeBottleneck, adminBottleneck,
    recallBottleneck, utilizationBottleneck, idleWageBottleneck, upsellBottleneck,
    inventoryBottleneck, marketingBottleneck, noShowImpact, deadTimeMonthly,
    deadTimeRevenueLost, adminCostMonthly, adminAutomatable, recoverablePatients,
    recallRevenue, utilizationGap, utilizationRevenue, marketingSpend, inventoryValue,
    idleWageCost, avgUpsellValue, upsellOpportunities, missedUpsellRevenue, inventoryWaste,
    wastedMarketing, deriveClinicMetrics, baseCi, ciMult, jsRound, jsCeil,
    tinyClinicInput, zeroCostDeeper, JSNum.maxJ, JSNum.ceil, JSNum.div,
    WORKING_DAYS, WEEKS_PER_MONTH, STAFF_HOURS_PER_DAY, AVG_TREATMENT_DURATION_HRS,
    BEST_IN_CLASS_UTILIZATION, PROVIDER_FRAC, ADMIN_TIME_FRAC, DEFAULT_HOURLY_COST]
